import Mathlib

/-
  Verification of the LeafDepot stack-counting decision engine.

  Shallow embedding of:
    core/detection/processors/stack_processor.py
    core/detection/processors/full_layer_detector.py
    core/detection/processors/factory.py
    core/detection/core/layer_filter.py
    core/detection/depth/depth_processor.py

  Conventions of the embedding:
  - Pixel coordinates and depth values are rationals (Python floats are
    modelled exactly as rationals; the numeric literals of the source such
    as 1e-6 are taken at their decimal value).
  - Box counts are naturals; totals and template entries are integers
    (Python ints).
  - Functions that can raise a Python exception return Except PyErr.
  - Debug printing, visualization, and file I/O side channels of the
    source are omitted: they do not affect any returned value.
  - Python dict results are modelled as structures; purely diagnostic
    string fields built by f-string interpolation (the "calculation"
    messages) are omitted, since no caller reads them.
-/

namespace LeafDepot

/-- Python exception kinds raised by the modelled code paths. -/
inductive PyErr where
  | valueError
  | keyError
  | unboundLocalError
deriving DecidableEq

/-- Decidable equality of `Except` results, so that witness theorems can
evaluate the embedded functions by `decide`. -/
instance {ε α : Type} [DecidableEq ε] [DecidableEq α] :
    DecidableEq (Except ε α) := fun x y =>
  match x, y with
  | .ok a, .ok b =>
    if h : a = b then .isTrue (by rw [h]) else .isFalse (by simp [h])
  | .error a, .error b =>
    if h : a = b then .isTrue (by rw [h]) else .isFalse (by simp [h])
  | .ok _, .error _ => .isFalse (by simp)
  | .error _, .ok _ => .isFalse (by simp)

/-- An axis-aligned rectangle with the "x1,y1,x2,y2" keys used throughout
the source for pile ROIs, layer ROIs and box ROIs. -/
structure Roi where
  x1 : ℚ
  y1 : ℚ
  x2 : ℚ
  y2 : ℚ
deriving DecidableEq

/-- One carton-face detection box. The source accepts both a nested
`roi` dict and flat keys; both spellings carry the same rectangle, so the
model keeps only the rectangle. -/
structure Box where
  roi : Roi
deriving DecidableEq

/-- A horizontal layer of boxes. `avg_y` is the mean vertical center of
the members; `roi` is the enclosing rectangle of the members.
`roi := none` models a layer dict whose "roi" entry lacks the
y1/y2 extent fields (`top["roi"].get("y2", None)` returning None in
core/detection/core/layer_filter.py). Layer construction itself lives in
the repository's clustering module, which only its callers see here. -/
structure Layer where
  avg_y : ℚ
  boxes : List Box
  roi : Option Roi
deriving DecidableEq

/-- One raw YOLO detection as produced by `extract_yolo_detections`:
a class tag (`cls`) and a rectangle. Confidence is never read by the
processors modelled here. -/
structure Det where
  cls : String
  x1 : ℚ
  y1 : ℚ
  x2 : ℚ
  y2 : ℚ
deriving DecidableEq

/-! ### List helpers shared by the embedded modules -/

/-- Python's stable ascending sort by the `avg_y` key
(`sorted(layers, key=lambda l: l["avg_y"])`). Insertion sort with `≤`
inserts an element strictly before the first tail element it is `≤` to;
since the sorted tail holds only elements that came later in the input,
ties keep their original order, exactly as CPython's stable sort does. -/
def sortLayers (ls : List Layer) : List Layer :=
  List.insertionSort (fun a b => a.avg_y ≤ b.avg_y) ls

/-- Stable ascending sort of rationals (`sorted(centers)`). -/
def sortQ (xs : List ℚ) : List ℚ :=
  List.insertionSort (fun a b : ℚ => a ≤ b) xs

/-- Arithmetic mean (`np.mean`); 0 on the empty list (the source guards
every use against emptiness). -/
def meanQ (xs : List ℚ) : ℚ :=
  xs.sum / xs.length

/-- Population variance, the square of `np.std`. The source only ever
compares `np.std(...)` against thresholds; those comparisons are modelled
exactly by comparing the variance against the squared threshold (see the
bridging lemmas at the end of the file). -/
def popVarQ (xs : List ℚ) : ℚ :=
  ((xs.map fun x => (x - meanQ xs) ^ 2).sum) / xs.length

/-- Maximum of a list of rationals under a floor of 0; for the
nonnegative lists it is applied to (box heights, depth values) this is
Python's `max`. -/
def maxQ0 (xs : List ℚ) : ℚ :=
  xs.foldr max 0

/-! ### full_layer_detector.py — CoverageBasedDetector -/

/-- Configuration of `CoverageBasedDetector.__init__`. The field
`heightFilterRatio` is the source's `height_filter_ratio` constructor
argument (renamed only for the Lean identifier). Defaults:
coverage 0.9, cv-gap 0.4, height filter 0.5. -/
structure CoverageBasedDetector where
  coverage_threshold : ℚ
  cv_gap_threshold : ℚ
  heightFilterRatio : ℚ
deriving DecidableEq

/-- The detector built with the source's default thresholds. -/
def defaultDetector : CoverageBasedDetector :=
  { coverage_threshold := 9 / 10
    cv_gap_threshold := 4 / 10
    heightFilterRatio := 1 / 2 }

namespace CoverageBasedDetector

/-- `CoverageBasedDetector._get_box_height`: `abs(y2 - y1)` of the box
rectangle (both dict spellings read the same rectangle). -/
def boxHeight (b : Box) : ℚ :=
  |b.roi.y2 - b.roi.y1|

/-- `CoverageBasedDetector._filter_boxes_by_height`: drop boxes whose
height is below `max_height * height_filter_ratio`, keeping `height >=
threshold`. Empty input passes through. -/
def filterBoxesByHeight (cfg : CoverageBasedDetector) (boxes : List Box) : List Box :=
  if boxes = [] then boxes
  else
    let maxHeight := maxQ0 (boxes.map boxHeight)
    let threshold := maxHeight * cfg.heightFilterRatio
    boxes.filter fun b => threshold ≤ boxHeight b

/-- Interval-merging loop of `_calc_coverage`: walk the intervals sorted
by left end, starting a new merged interval when `s > merged[-1][1]` and
otherwise extending the last merged interval to `max(merged[-1][1], e)`.
The accumulator is kept reversed (the source mutates the tail of a
list); the caller only sums lengths, so order is irrelevant there. -/
def mergeStep (acc : List (ℚ × ℚ)) (iv : ℚ × ℚ) : List (ℚ × ℚ) :=
  match acc with
  | [] => [iv]
  | last :: rest =>
    if iv.1 > last.2 then iv :: last :: rest
    else (last.1, max last.2 iv.2) :: rest

/-- The merged interval list: fold `mergeStep` over the sorted
intervals. -/
def mergeIntervals (ivs : List (ℚ × ℚ)) : List (ℚ × ℚ) :=
  (ivs.foldl mergeStep []).reverse

/-- `CoverageBasedDetector._calc_coverage`: merged horizontal interval
length of the boxes divided by the pile-ROI width, capped at 1.0; 0.0 for
no boxes. Note the source divides by `pile_roi` width with no sign or
zero guard (rational division by zero yields 0 in the model; the theorems
about coverage carry the positive-width hypothesis under which the model
and the Python float division agree). -/
def calcCoverage (boxes : List Box) (pile_roi : Roi) : ℚ :=
  if boxes = [] then 0
  else
    let pileW := pile_roi.x2 - pile_roi.x1
    let intervals :=
      List.insertionSort (fun a b : ℚ × ℚ => a.1 ≤ b.1)
        (boxes.map fun b => (b.roi.x1, b.roi.x2))
    let coverW := ((mergeIntervals intervals).map fun p => p.2 - p.1).sum
    min 1 (coverW / pileW)

/-- Sorted x-centers of the boxes, as in `_calc_cv_gap`. -/
def sortedCenters (boxes : List Box) : List ℚ :=
  sortQ (boxes.map fun b => (b.roi.x1 + b.roi.x2) / 2)

/-- Consecutive gaps between sorted centers. -/
def gapsOf (cs : List ℚ) : List ℚ :=
  (cs.zip cs.tail).map fun p => p.2 - p.1

/-- The decision `cv_gap < thr` of `_calc_cv_gap` composed with the `<`
comparison in `detect`. The source computes
`cv_gap = np.std(gaps) / np.mean(gaps)` (0.0 with fewer than 3 boxes, no
gaps, or zero mean) and compares it with `<` against the threshold. For a
positive mean m, `sqrt(v)/m < thr` holds iff `0 < thr` and
`v < (thr*m)^2`; the lemma `cvGapLt_iff_sqrt` below proves this
equivalence against the real-valued standard deviation. -/
def cvGapLt (boxes : List Box) (thr : ℚ) : Bool :=
  if boxes.length < 3 then decide (0 < thr)
  else
    let gs := gapsOf (sortedCenters boxes)
    if gs = [] ∨ meanQ gs = 0 then decide (0 < thr)
    else decide (0 < thr ∧ popVarQ gs < (thr * meanQ gs) ^ 2)

end CoverageBasedDetector

/-- The `top_layer` sub-dict of a detection result. -/
structure TopLayerInfo where
  index : ℕ
  expected : ℤ
  observed : ℕ
deriving DecidableEq

/-- Result dict of `CoverageBasedDetector.detect`, together with the
`pile_roi` and `yolo_detections` entries that
`StackProcessorFactory.process` injects into it before dispatching
(absent, i.e. `none`/`[]`, when `detect` itself builds the dict). The
purely diagnostic `metrics` sub-dict is omitted: no caller reads it. -/
structure DetectResult where
  status : String
  full : Bool
  reason : String
  top_layer : Option TopLayerInfo
  pile_roi : Option Roi
  yolo_detections : List Det
deriving DecidableEq

namespace CoverageBasedDetector

/-- `CoverageBasedDetector.detect`. Returns the result dict paired with
the layer list as the caller sees it after the call: `detect` filters the
top layer's boxes in place (`top_layer["boxes"] = top_layer_boxes`), a
mutation visible through the caller's list. The mutated list is given in
sorted order; the factory always passes layers already sorted ascending
by `avg_y` (factory.py `_process_layers`), under which this is exactly
the in-place update of the first element. -/
def detect (cfg : CoverageBasedDetector) (layers : List Layer)
    (template_layers : List ℤ) (pile_roi : Roi) :
    DetectResult × List Layer :=
  match sortLayers layers with
  | [] =>
    ({ status := "partial", full := false, reason := "empty_layers"
       top_layer := none, pile_roi := none, yolo_detections := [] }, layers)
  | top :: rest =>
    let fBoxes := cfg.filterBoxesByHeight top.boxes
    let top' := { top with boxes := fBoxes }
    let layers' := top' :: rest
    if rest.isEmpty then
      ({ status := "single_layer", full := false
         reason := "single_layer_detected"
         top_layer := some { index := 1, expected := template_layers.headD 0
                             observed := fBoxes.length }
         pile_roi := none, yolo_detections := [] }, layers')
    else
      let cTop := template_layers.headD 0
      let oTop := fBoxes.length
      let coverage := calcCoverage fBoxes pile_roi
      if (oTop : ℤ) = cTop then
        ({ status := "full", full := true, reason := "match_template"
           top_layer := some { index := 1, expected := cTop, observed := oTop }
           pile_roi := none, yolo_detections := [] }, layers')
      else if cfg.coverage_threshold < coverage ∧ cvGapLt fBoxes cfg.cv_gap_threshold then
        ({ status := "full", full := true, reason := "continuous_filled"
           top_layer := some { index := 1, expected := cTop, observed := oTop }
           pile_roi := none, yolo_detections := [] }, layers')
      else
        ({ status := "partial", full := false, reason := "low_coverage_or_gap"
           top_layer := some { index := 1, expected := cTop, observed := oTop }
           pile_roi := none, yolo_detections := [] }, layers')

end CoverageBasedDetector

/-! ### stack_processor.py — TemplateBasedFullProcessor -/

/-- Result dict of `TemplateBasedFullProcessor.process`
(total / strategy / details). -/
structure FullResult where
  total : ℤ
  strategy : String
  n_detected : ℕ
  n_template : ℕ
  template_sum : ℤ
deriving DecidableEq

namespace TemplateBasedFullProcessor

/-- `TemplateBasedFullProcessor.process`. The optional depth image and
depth-matrix CSV path parameters of the source are accepted and never
read, exactly as in the source; they are therefore not parameters of the
model. -/
def process (layers : List Layer) (template_layers : List ℤ)
    (_detection_result : DetectResult) : FullResult :=
  let nDetected := layers.length
  let nTemplate := template_layers.length
  if nDetected = nTemplate then
    { total := template_layers.sum, strategy := "full_match"
      n_detected := nDetected, n_template := nTemplate
      template_sum := template_layers.sum }
  else if nDetected < nTemplate then
    { total := (template_layers.take nDetected).sum
      strategy := "partial_visible"
      n_detected := nDetected, n_template := nTemplate
      template_sum := template_layers.sum }
  else
    { total := template_layers.sum, strategy := "exceed_template"
      n_detected := nDetected, n_template := nTemplate
      template_sum := template_layers.sum }

end TemplateBasedFullProcessor

/-! ### depth/depth_processor.py — DepthProcessor -/

/-- Python `int()` truncation toward zero of a rational. -/
def pyIntTrunc (q : ℚ) : ℤ :=
  if 0 ≤ q then ⌊q⌋ else -⌊-q⌋

/-- Minimum of a nonempty rational list (Python `min`); 0 as an unused
default on `[]` (every use is guarded by nonemptiness in the source). -/
def minQL : List ℚ → ℚ
  | [] => 0
  | x :: r => r.foldl min x

/-- Maximum of a nonempty rational list (Python `max`); 0 as an unused
default on `[]`. -/
def maxQL : List ℚ → ℚ
  | [] => 0
  | x :: r => r.foldl max x

/-- `np.median`: middle element of the sorted list, or the mean of the
two middle elements for even length; 0 on `[]` (guarded in the source). -/
def medianQ (xs : List ℚ) : ℚ :=
  let s := sortQ xs
  let n := s.length
  if n = 0 then 0
  else if n % 2 = 1 then s.getD (n / 2) 0
  else (s.getD (n / 2 - 1) 0 + s.getD (n / 2) 0) / 2

/-- Python `round(q, 1)` modelled as rounding `q*10` to the nearest
integer (Mathlib `round`, half away from the floor). Python's float
round-half-to-even differs only at exact two-decimal midpoints, which no
claim depends on. -/
def round1 (q : ℚ) : ℚ :=
  (round (q * 10) : ℤ) / 10

/-- A depth matrix (rectangular 2D grid, row major), as loaded from
`depth_matrix.csv`. -/
structure DepthMatrix where
  data : List (List ℚ)
deriving DecidableEq

namespace DepthMatrix

/-- Number of rows (`shape[0]`). -/
def height (m : DepthMatrix) : ℕ := m.data.length

/-- Number of columns (`shape[1]`); the grid is rectangular. -/
def width (m : DepthMatrix) : ℕ := (m.data.headD []).length

/-- Entry at row `y`, column `x` (0 outside the grid; every read is
bounds-checked in the source). -/
def at2 (m : DepthMatrix) (y x : ℕ) : ℚ :=
  (m.data.getD y []).getD x 0

/-- The values of the rectangular sub-grid with rows
`yStart ≤ y < yEnd` and columns `xStart ≤ x < xEnd`, in the row-major
order of the source's double loop. -/
def regionValues (m : DepthMatrix) (yStart yEnd xStart xEnd : ℕ) : List ℚ :=
  ((List.range (yEnd - yStart)).map (yStart + ·)).flatMap fun row =>
    ((List.range (xEnd - xStart)).map (xStart + ·)).map fun col => m.at2 row col

end DepthMatrix

/-- Outcome dict of `DepthProcessor.extract_depth_at_position`. The
out-of-bounds return carries only `success: False`, an error message and
a zero value; the in-bounds return carries `success: True` with the
sampling statistics. Diagnostic fields that no modelled caller reads
(`std`, pixel/normalized coordinates, region bounds, the filtered point
list, and the per-point positions) are omitted; the status tags stand
for the source's formatted status strings
(median_filter / relaxed_filter / no_filtered_points). -/
inductive ExtractOutcome where
  | failure (error : String) (value : ℚ)
  | success (value centerValue medianValue : ℚ) (status : String)
      (validPointsCount totalValidPoints : ℕ) (regionMin regionMax : ℚ)
deriving DecidableEq

namespace DepthProcessor

/-- `DepthProcessor.extract_depth_at_position`. Sample a
`region_size × region_size` neighborhood of the pixel the normalized
point maps to, keep the positive samples, filter them to within 500 of
their median, refiltering with mean ± 2·std over all valid samples when
fewer than 5 survive (`|v - mean| ≤ 2*sqrt(var)` is decided exactly as
`(v - mean)^2 ≤ 4*var`), and average the survivors.

The model is exception-precise: when the neighborhood holds no positive
sample the source's return dict reads the local `filtered_points`, which
was only assigned on the nonempty branch, so CPython raises
UnboundLocalError there instead of returning the prepared
"no valid points" result. -/
def extract_depth_at_position (m : DepthMatrix) (normX normY : ℚ)
    (regionSize : ℕ := 5) : Except PyErr ExtractOutcome :=
  let dHeight := m.height
  let dWidth := m.width
  let y := pyIntTrunc (normY * dHeight)
  let x := pyIntTrunc (normX * dWidth)
  if x < 0 ∨ (dWidth : ℤ) ≤ x ∨ y < 0 ∨ (dHeight : ℤ) ≤ y then
    .ok (.failure "coordinate out of range" 0)
  else
    let yn := y.toNat
    let xn := x.toNat
    let half := regionSize / 2
    let yStart := yn - half
    let yEnd := min dHeight (yn + half + 1)
    let xStart := xn - half
    let xEnd := min dWidth (xn + half + 1)
    let validValues := (m.regionValues yStart yEnd xStart xEnd).filter (fun v => 0 < v)
    let medianValue := if validValues = [] then 0 else medianQ validValues
    let centerValue := m.at2 yn xn
    if validValues = [] then
      .error .unboundLocalError
    else
      let f1 := validValues.filter fun v => |v - medianValue| ≤ 500
      let relaxed := f1.length < 5
      let filtered :=
        if relaxed then
          validValues.filter fun v =>
            (v - meanQ validValues) ^ 2 ≤ 4 * popVarQ validValues
        else f1
      if filtered = [] then
        .ok (.success 0 centerValue medianValue "no_filtered_points"
          0 validValues.length 0 0)
      else
        .ok (.success (round1 (meanQ filtered)) centerValue medianValue
          (if relaxed then "relaxed_filter" else "median_filter")
          filtered.length validValues.length (minQL filtered) (maxQL filtered))

end DepthProcessor

/-! ### stack_processor.py — TemplateBasedPartialProcessor -/

/-- Pile-ROI inference from box extents, shared verbatim by the partial
and single-layer processors (used when `detection_result` carries no
`pile_roi`). -/
def inferRoiFromBoxes (boxes : List Box) : Roi :=
  match boxes with
  | [] => ⟨0, 0, 1000, 1000⟩
  | _ =>
    let xs := boxes.flatMap fun b => [b.roi.x1, b.roi.x2]
    let ys := boxes.flatMap fun b => [b.roi.y1, b.roi.y2]
    ⟨minQL xs, minQL ys, maxQL xs, maxQL ys⟩

/-- Clamp to [0, 1], as applied to the normalized box centers before
depth sampling. -/
def clamp01 (q : ℚ) : ℚ := max 0 (min 1 q)

/-- Result dict of `TemplateBasedPartialProcessor.process`. -/
structure PartialResult where
  total : ℤ
  strategy : String
  n_detected : ℕ
  n_template : ℕ
  top_layer_observed : ℕ
  lower_layers_sum : ℤ
  top_layer_boxes : List Box
  top_layer : Layer
deriving DecidableEq

namespace TemplateBasedPartialProcessor

/-- `TemplateBasedPartialProcessor._calculate_top_layer_count_with_depth`.
The CSV branch samples each top box's clamped normalized center against
the depth matrix (the source falls back to the matrix dimensions for the
image size when `pile_roi` carries no `image_width`/`image_height`
entries); the depth-image branch reads a sub-array for debug statistics.
Both products are diagnostic only: every branch returns
`len(top_layer_boxes)` (source: `base_count`), and exceptions inside the
CSV branch are caught and also yield `base_count`. -/
def calcTopLayerCountWithDepth (_top_layer : Layer) (top_layer_boxes : List Box)
    (_pile_roi : Roi) (depth_image : Option DepthMatrix)
    (depth_csv : Option DepthMatrix) : ℕ :=
  match depth_image, depth_csv with
  | none, none => top_layer_boxes.length
  | _, some matrix =>
    let _diagnosticSamples := top_layer_boxes.map fun b =>
      let cx := clamp01 ((b.roi.x1 + b.roi.x2) / 2 / (matrix.width : ℚ))
      let cy := clamp01 ((b.roi.y1 + b.roi.y2) / 2 / (matrix.height : ℚ))
      DepthProcessor.extract_depth_at_position matrix cx cy 5
    top_layer_boxes.length
  | some _, none => top_layer_boxes.length

/-- `TemplateBasedPartialProcessor.process`. Raises ValueError on an
empty layer list; otherwise total = Σ(template[:-1]) + observed top-layer
count. The source's Step 0 (`_process_depth_image`) only swaps in a
freshly computed depth-matrix cache from disk, which the `depth_csv`
argument already ranges over. -/
def process (layers : List Layer) (template_layers : List ℤ)
    (detection_result : DetectResult)
    (depth_image depth_csv : Option DepthMatrix) : Except PyErr PartialResult :=
  match layers with
  | [] => .error .valueError
  | top :: _ =>
    let topBoxes := top.boxes
    let pileRoi := detection_result.pile_roi.getD (inferRoiFromBoxes topBoxes)
    let observed :=
      calcTopLayerCountWithDepth top topBoxes pileRoi depth_image depth_csv
    let lowerSum :=
      if 1 < template_layers.length then template_layers.dropLast.sum else 0
    .ok
      { total := lowerSum + (observed : ℤ)
        strategy := "partial_with_template"
        n_detected := layers.length
        n_template := template_layers.length
        top_layer_observed := observed
        lower_layers_sum := lowerSum
        top_layer_boxes := topBoxes
        top_layer := top }

end TemplateBasedPartialProcessor

/-! ### stack_processor.py — TemplateBasedSingleLayerProcessor -/

/-- Result dict of `TemplateBasedSingleLayerProcessor.process`. -/
structure SingleResult where
  total : ℤ
  strategy : String
  n_detected : ℕ
  n_template : ℕ
  observed : ℕ
  layer_boxes : List Box
  top_boxes : List Det
  layer : Layer
deriving DecidableEq

/-- Whether a detection's center `(0.5*(x1+x2), 0.5*(y1+y2))` lies inside
the pile ROI (inclusive on all four sides, as in the source's chained
comparisons). -/
def centerInRoi (roi : Roi) (d : Det) : Bool :=
  let xc := (d.x1 + d.x2) / 2
  let yc := (d.y1 + d.y2) / 2
  decide (roi.x1 ≤ xc ∧ xc ≤ roi.x2 ∧ roi.y1 ≤ yc ∧ yc ≤ roi.y2)

namespace TemplateBasedSingleLayerProcessor

/-- `TemplateBasedSingleLayerProcessor.process`. Raises ValueError on an
empty layer list. Selects the `top`-class YOLO detections, keeps those
whose center lies in the pile ROI (the source skips the ROI filter when
no `top`-class detection exists, which leaves the same empty list), and
uses their count; with none it falls back to the sole layer's box
count. -/
def process (layers : List Layer) (template_layers : List ℤ)
    (detection_result : DetectResult) : Except PyErr SingleResult :=
  match layers with
  | [] => .error .valueError
  | layer :: _ =>
    let layerBoxes := layer.boxes
    let pileRoi := detection_result.pile_roi.getD (inferRoiFromBoxes layerBoxes)
    let topBoxes0 := detection_result.yolo_detections.filter fun d => d.cls == "top"
    let topBoxes :=
      if topBoxes0.isEmpty then topBoxes0
      else topBoxes0.filter (centerInRoi pileRoi)
    if topBoxes.isEmpty then
      .ok
        { total := (layerBoxes.length : ℤ), strategy := "single_layer_fallback"
          n_detected := layers.length, n_template := template_layers.length
          observed := layerBoxes.length, layer_boxes := layerBoxes
          top_boxes := topBoxes, layer := layer }
    else
      .ok
        { total := (topBoxes.length : ℤ)
          strategy := "single_layer_with_top_class"
          n_detected := layers.length, n_template := template_layers.length
          observed := topBoxes.length, layer_boxes := layerBoxes
          top_boxes := topBoxes, layer := layer }

end TemplateBasedSingleLayerProcessor

/-! ### factory.py — StackProcessorFactory -/

namespace StackProcessorFactory

/-- `StackProcessorFactory.process`: run the full-layer detector, inject
`pile_roi` and the raw YOLO detections into its result dict, dispatch on
`status` (single_layer / full-or-`full` flag / partial) and return the
chosen processor's total. The returned layer list is the caller's list
after the detector's in-place top-layer filtering (the source passes the
same mutated `layers` object to the chosen processor). -/
def process (cfg : CoverageBasedDetector) (layers : List Layer)
    (template_layers : List ℤ) (pile_roi : Roi) (yolo_detections : List Det)
    (depth_image depth_csv : Option DepthMatrix) :
    Except PyErr (ℤ × List Layer) :=
  let dpair := CoverageBasedDetector.detect cfg layers template_layers pile_roi
  let layers' := dpair.2
  let dr := { dpair.1 with pile_roi := some pile_roi
                           yolo_detections := yolo_detections }
  if dr.status = "single_layer" then
    (TemplateBasedSingleLayerProcessor.process layers' template_layers dr).map
      fun r => (r.total, layers')
  else if dr.status = "full" ∨ dr.full then
    let r := TemplateBasedFullProcessor.process layers' template_layers dr
    .ok (r.total, layers')
  else
    (TemplateBasedPartialProcessor.process layers' template_layers dr
        depth_image depth_csv).map
      fun r => (r.total, layers')

/-- `StackProcessorFactory._get_template_config`: the template-database
answer, or, when it is empty, one synthesized entry per detected layer
holding that layer's (raw) box count. -/
def getTemplateConfig (dbTemplate : List ℤ) (layers : List Layer) : List ℤ :=
  if dbTemplate = [] then layers.map fun l => (l.boxes.length : ℤ)
  else dbTemplate

/-- Steps 5–6 of the counting pipeline for a pile whose template lookup
came back `dbTemplate`: resolve the template, then process. -/
def processWithTemplateLookup (cfg : CoverageBasedDetector)
    (dbTemplate : List ℤ) (layers : List Layer) (pile_roi : Roi)
    (yolo_detections : List Det) (depth_image depth_csv : Option DepthMatrix) :
    Except PyErr (ℤ × List Layer) :=
  process cfg layers (getTemplateConfig dbTemplate layers) pile_roi
    yolo_detections depth_image depth_csv

end StackProcessorFactory

/-! ### core/layer_filter.py — remove_fake_top_layer -/

/-- The fallback extent computation of `remove_fake_top_layer`: the
source's inner `layer_width` extends `xs` with each member box's
`roi["y1"]` and `roi["y2"]` and returns `max(xs) - min(xs)` — a vertical
extent, despite the variable names. Python's `max`/`min` raise ValueError
on a layer with no boxes. -/
def layerWidthFromBoxes (l : Layer) : Except PyErr ℚ :=
  let xs := l.boxes.flatMap fun b => [b.roi.y1, b.roi.y2]
  match xs with
  | [] => .error .valueError
  | x :: r => .ok (r.foldl max x - r.foldl min x)

/-- `remove_fake_top_layer` (default `width_ratio_thr` 0.7): with at
least two layers, compare the extent of the topmost layer against the
second and drop the topmost exactly when
`width_top / max(width_next, 1e-6) < width_ratio_thr`.

Despite its docstring ("ROI width") the source reads `roi["y2"]` and
`roi["y1"]` of both layers — or, when the top layer's roi lacks a `y2`
entry, the member boxes' y coordinates — so the compared extents are
vertical (its own debug line calls this a height-ratio check). Reading
the second layer's roi fields raises KeyError when they are absent while
the top layer's are present. -/
def remove_fake_top_layer (layers : List Layer)
    (width_ratio_thr : ℚ := 7 / 10) : Except PyErr (List Layer) :=
  match layers with
  | [] => .ok layers
  | [l] => .ok [l]
  | top :: next :: rest =>
    match top.roi with
    | some rTop =>
      match next.roi with
      | some rNext =>
        let widthTop := rTop.y2 - rTop.y1
        let widthNext := rNext.y2 - rNext.y1
        if widthTop / max widthNext (1 / 1000000) < width_ratio_thr then
          .ok (next :: rest)
        else .ok (top :: next :: rest)
      | none => .error .keyError
    | none => do
      let widthTop ← layerWidthFromBoxes top
      let widthNext ← layerWidthFromBoxes next
      if widthTop / max widthNext (1 / 1000000) < width_ratio_thr then
        .ok (next :: rest)
      else .ok (top :: next :: rest)

/-- Modelled from the spec: the claim's reading of
`remove_fake_top_layer`, in which the compared extents are horizontal
(`x2 - x1` of the layer rois, or the member boxes' x coordinates), kept
otherwise identical in structure. Used only to compare the spec's words
against the source's behavior. -/
def removeFakeTopLayerSpecHorizontal (layers : List Layer)
    (width_ratio_thr : ℚ := 7 / 10) : Except PyErr (List Layer) :=
  match layers with
  | [] => .ok layers
  | [l] => .ok [l]
  | top :: next :: rest =>
    match top.roi with
    | some rTop =>
      match next.roi with
      | some rNext =>
        let widthTop := rTop.x2 - rTop.x1
        let widthNext := rNext.x2 - rNext.x1
        if widthTop / max widthNext (1 / 1000000) < width_ratio_thr then
          .ok (next :: rest)
        else .ok (top :: next :: rest)
      | none => .error .keyError
    | none => do
      let widthTop ← (match top.boxes.flatMap
          (fun b => [b.roi.x1, b.roi.x2]) with
        | [] => Except.error PyErr.valueError
        | x :: r => Except.ok (r.foldl max x - r.foldl min x))
      let widthNext ← (match next.boxes.flatMap
          (fun b => [b.roi.x1, b.roi.x2]) with
        | [] => Except.error PyErr.valueError
        | x :: r => Except.ok (r.foldl max x - r.foldl min x))
      if widthTop / max widthNext (1 / 1000000) < width_ratio_thr then
        .ok (next :: rest)
      else .ok (top :: next :: rest)

/-! ### Concrete sample data used by the witness and counterexample
theorems -/

/-- A tall box (height 10) at the left of the pile. -/
def sampleBoxTall : Box := ⟨⟨0, 0, 10, 10⟩⟩

/-- A short box (height 4): filtered away by the default height filter
(threshold 10 · 0.5 = 5). -/
def sampleBoxShort : Box := ⟨⟨20, 0, 21, 4⟩⟩

/-- A top layer holding the tall and the short box. -/
def sampleTopLayer : Layer := ⟨5, [sampleBoxTall, sampleBoxShort], some ⟨0, 0, 21, 10⟩⟩

/-- A bottom layer with three boxes. -/
def sampleBottomLayer : Layer :=
  ⟨50, [⟨⟨0, 45, 10, 55⟩⟩, ⟨⟨12, 45, 22, 55⟩⟩, ⟨⟨24, 45, 34, 55⟩⟩],
   some ⟨0, 45, 34, 55⟩⟩

/-- A pile ROI of width 100. -/
def sampleRoi : Roi := ⟨0, 0, 100, 60⟩

/-! ### Shared supporting lemmas -/

/-- Every branch of the depth-assisted top-layer count returns the
detected box count: depth data is diagnostic only. -/
theorem calcTopLayerCountWithDepth_eq_length (tl : Layer) (tb : List Box)
    (pr : Roi) (di dc : Option DepthMatrix) :
    TemplateBasedPartialProcessor.calcTopLayerCountWithDepth tl tb pr di dc
      = tb.length := by
  cases di <;> cases dc <;> rfl

/-- The source's `sum(template[:-1]) if n_template > 1 else 0` equals
`Σ(template[:-1])` unconditionally. -/
theorem lowerSum_eq_dropLast_sum (t : List ℤ) :
    (if 1 < t.length then t.dropLast.sum else 0) = t.dropLast.sum := by
  rcases t with _ | ⟨a, _ | ⟨b, r⟩⟩ <;> simp

/-- Skipping a filter on the empty list is the same as filtering. -/
theorem if_isEmpty_filter (l : List Det) (p : Det → Bool) :
    (if l.isEmpty then l else l.filter p) = l.filter p := by
  cases l <;> simp

/-! ### C1 — TemplateBasedFullProcessor.process -/

/-- C1: for every layer list and template list,
`TemplateBasedFullProcessor.process` returns total = Σ(template) with
strategy `full_match` when the counts match, total = Σ(template[:n])
with strategy `partial_visible` when n = len(layers) < len(template),
and total = Σ(template) with strategy `exceed_template` when
len(layers) > len(template). -/
theorem full_processor_total_and_strategy (layers : List Layer)
    (template : List ℤ) (dr : DetectResult) :
    (TemplateBasedFullProcessor.process layers template dr).total =
      (if layers.length = template.length then template.sum
       else if layers.length < template.length then
         (template.take layers.length).sum
       else template.sum) ∧
    (TemplateBasedFullProcessor.process layers template dr).strategy =
      (if layers.length = template.length then "full_match"
       else if layers.length < template.length then "partial_visible"
       else "exceed_template") := by
  unfold TemplateBasedFullProcessor.process
  by_cases h1 : layers.length = template.length <;>
    by_cases h2 : layers.length < template.length <;>
      simp [h1, h2]

/-! ### C2 — TemplateBasedPartialProcessor.process -/

/-- C2: for every non-empty layer list and every template list, the
partial processor returns total = Σ(template minus its last entry) plus
the box count of the already-filtered top layer `layers[0]`, and
supplying a depth image or a depth-matrix CSV never changes the total
(absent both, the raw filtered count is used unchanged). -/
theorem partial_processor_total_depth_invariant (top : Layer)
    (rest : List Layer) (template : List ℤ) (dr : DetectResult)
    (di dc di' dc' : Option DepthMatrix) :
    (TemplateBasedPartialProcessor.process (top :: rest) template dr
        di dc).map (fun r => r.total)
      = .ok (template.dropLast.sum + (top.boxes.length : ℤ)) ∧
    (TemplateBasedPartialProcessor.process (top :: rest) template dr
        di dc).map (fun r => r.total)
      = (TemplateBasedPartialProcessor.process (top :: rest) template dr
          di' dc').map (fun r => r.total) := by
  refine ⟨?_, ?_⟩ <;>
    simp [TemplateBasedPartialProcessor.process, Except.map,
      calcTopLayerCountWithDepth_eq_length, lowerSum_eq_dropLast_sum]

/-! ### C4 — TemplateBasedSingleLayerProcessor.process -/

/-- C4: for every single-layer classification carrying a pile ROI, the
single-layer processor returns total = the number of YOLO detections of
class "top" whose center lies inside the pile ROI; when no such
detection exists, total equals the filtered box count of the sole
layer. -/
theorem single_processor_total (layer : Layer) (rest : List Layer)
    (template : List ℤ) (dr : DetectResult) (roi : Roi)
    (hroi : dr.pile_roi = some roi) :
    (TemplateBasedSingleLayerProcessor.process (layer :: rest) template
        dr).map (fun r => r.total)
      = .ok
          (if ((dr.yolo_detections.filter fun d => d.cls == "top").filter
              (centerInRoi roi)).isEmpty
           then (layer.boxes.length : ℤ)
           else (((dr.yolo_detections.filter fun d => d.cls == "top").filter
              (centerInRoi roi)).length : ℤ)) := by
  unfold TemplateBasedSingleLayerProcessor.process
  rw [hroi]
  simp only [Option.getD_some, if_isEmpty_filter]
  split <;> rfl

/-- Witness for C4 at a concrete input: one layer with two boxes, three
YOLO detections of which two are "top"-class with center inside the
pile ROI (the third "top" detection lies outside), so the total is 2. -/
theorem single_processor_total_witness :
    (TemplateBasedSingleLayerProcessor.process [sampleTopLayer] []
        { status := "single_layer", full := false
          reason := "single_layer_detected", top_layer := none
          pile_roi := some sampleRoi
          yolo_detections :=
            [⟨"top", 0, 0, 10, 10⟩, ⟨"top", 12, 0, 22, 10⟩,
             ⟨"top", 200, 0, 210, 10⟩, ⟨"box", 0, 0, 10, 10⟩] }).map
      (fun r => r.total) = .ok 2 := by
  rw [single_processor_total sampleTopLayer [] []
    { status := "single_layer", full := false
      reason := "single_layer_detected", top_layer := none
      pile_roi := some sampleRoi
      yolo_detections :=
        [⟨"top", 0, 0, 10, 10⟩, ⟨"top", 12, 0, 22, 10⟩,
         ⟨"top", 200, 0, 210, 10⟩, ⟨"box", 0, 0, 10, 10⟩] }
    sampleRoi rfl]
  with_unfolding_all rfl

/-! ### C3 — CoverageBasedDetector.detect -/

/-- A sorted layer list is left unchanged by the detector's sort. -/
theorem sortLayers_eq_self {ls : List Layer}
    (h : ls.Sorted fun a b => a.avg_y ≤ b.avg_y) : sortLayers ls = ls :=
  List.Sorted.insertionSort_eq h

/-- C3: `CoverageBasedDetector.detect` implements the case analysis of
the spec: zero layers → partial / empty_layers with a null top layer;
exactly one layer → single_layer with expected `template[0] or 0` and
the height-filtered box count observed; two or more layers (sorted
ascending by `avg_y`) → first match wins among (1) filtered top count =
expected top count → full / match_template, (2) coverage above the
coverage threshold and cv_gap below the gap threshold →
full / continuous_filled, (3) otherwise partial / low_coverage_or_gap. -/
theorem detector_detect_case_analysis (cfg : CoverageBasedDetector)
    (template : List ℤ) (roi : Roi) :
    ((CoverageBasedDetector.detect cfg [] template roi).1 =
      { status := "partial", full := false, reason := "empty_layers"
        top_layer := none, pile_roi := none, yolo_detections := [] })
    ∧ (∀ L : Layer,
        (CoverageBasedDetector.detect cfg [L] template roi).1 =
          { status := "single_layer", full := false
            reason := "single_layer_detected"
            top_layer := some ⟨1, template.headD 0,
              (cfg.filterBoxesByHeight L.boxes).length⟩
            pile_roi := none, yolo_detections := [] })
    ∧ (∀ (L1 L2 : Layer) (rest : List Layer),
        (L1 :: L2 :: rest).Sorted (fun a b => a.avg_y ≤ b.avg_y) →
        (CoverageBasedDetector.detect cfg (L1 :: L2 :: rest) template roi).1 =
          (let fB := cfg.filterBoxesByHeight L1.boxes
           let cTop := template.headD 0
           let info : Option TopLayerInfo :=
             some { index := 1, expected := cTop, observed := fB.length }
           if (fB.length : ℤ) = cTop then
             { status := "full", full := true, reason := "match_template"
               top_layer := info, pile_roi := none, yolo_detections := [] }
           else if cfg.coverage_threshold
                 < CoverageBasedDetector.calcCoverage fB roi
               ∧ CoverageBasedDetector.cvGapLt fB cfg.cv_gap_threshold then
             { status := "full", full := true, reason := "continuous_filled"
               top_layer := info, pile_roi := none, yolo_detections := [] }
           else
             { status := "partial", full := false
               reason := "low_coverage_or_gap"
               top_layer := info, pile_roi := none
               yolo_detections := [] })) := by
  refine ⟨rfl, fun L => rfl, fun L1 L2 rest hs => ?_⟩
  have hsort : sortLayers (L1 :: L2 :: rest) = L1 :: L2 :: rest :=
    sortLayers_eq_self hs
  unfold CoverageBasedDetector.detect
  rw [hsort]
  simp only [List.headD_eq_head?_getD]
  by_cases h1 : ((cfg.filterBoxesByHeight L1.boxes).length : ℤ)
      = template.head?.getD 0
  · simp [h1]
  · by_cases h2 : cfg.coverage_threshold
        < CoverageBasedDetector.calcCoverage
            (cfg.filterBoxesByHeight L1.boxes) roi
      ∧ CoverageBasedDetector.cvGapLt (cfg.filterBoxesByHeight L1.boxes)
          cfg.cv_gap_threshold = true
    · simp [h1, h2]
    · simp [h1, h2]

/-- Witness for C3 at a concrete sorted two-layer input with the default
thresholds: the short box is filtered (observed 1 ≠ expected 2) and
coverage 0.1 fails the 0.9 threshold, so the result is
partial / low_coverage_or_gap. -/
theorem detector_detect_case_analysis_witness :
    (CoverageBasedDetector.detect defaultDetector
        [sampleTopLayer, sampleBottomLayer] [2, 3] sampleRoi).1 =
      { status := "partial", full := false, reason := "low_coverage_or_gap"
        top_layer := some { index := 1, expected := 2, observed := 1 }
        pile_roi := none, yolo_detections := [] } := by
  rw [(detector_detect_case_analysis defaultDetector [2, 3] sampleRoi).2.2
    sampleTopLayer sampleBottomLayer []
    (by with_unfolding_all decide)]
  with_unfolding_all rfl

/-! ### C8 — CoverageBasedDetector._calc_coverage -/

/-- The merging loop of `_calc_coverage` preserves "left end ≤ right
end" of every interval in its accumulator. -/
theorem mergeStep_le (acc : List (ℚ × ℚ)) (iv : ℚ × ℚ)
    (hiv : iv.1 ≤ iv.2) (ha : ∀ p ∈ acc, p.1 ≤ p.2) :
    ∀ p ∈ CoverageBasedDetector.mergeStep acc iv, p.1 ≤ p.2 := by
  intro q hq
  match acc, hq with
  | [], hq =>
    rcases List.mem_singleton.mp hq with rfl
    exact hiv
  | last :: tail, hq =>
    rw [CoverageBasedDetector.mergeStep] at hq
    by_cases hgt : iv.1 > last.2
    · rw [if_pos hgt] at hq
      rcases List.mem_cons.mp hq with rfl | hq'
      · exact hiv
      · exact ha q hq'
    · rw [if_neg hgt] at hq
      rcases List.mem_cons.mp hq with rfl | hq'
      · exact le_trans (ha last (List.mem_cons_self _ _)) (le_max_left _ _)
      · exact ha q (List.mem_cons_of_mem _ hq')

/-- The merging fold preserves "left end ≤ right end" of every interval
in its accumulator. -/
theorem mergeFold_le (ivs : List (ℚ × ℚ)) :
    ∀ acc : List (ℚ × ℚ), (∀ p ∈ ivs, p.1 ≤ p.2) → (∀ p ∈ acc, p.1 ≤ p.2) →
    ∀ p ∈ ivs.foldl CoverageBasedDetector.mergeStep acc, p.1 ≤ p.2 := by
  induction ivs with
  | nil => intro acc _ ha p hp; exact ha p hp
  | cons iv rest ih =>
    intro acc h ha p hp
    refine ih _ (fun q hq => h q (List.mem_cons_of_mem _ hq)) ?_ p hp
    exact mergeStep_le acc iv (h iv (List.mem_cons_self _ _)) ha

/-- Every merged interval has nonnegative length when every input
interval does. -/
theorem mergeIntervals_le (ivs : List (ℚ × ℚ)) (h : ∀ p ∈ ivs, p.1 ≤ p.2) :
    ∀ p ∈ CoverageBasedDetector.mergeIntervals ivs, p.1 ≤ p.2 := by
  intro p hp
  exact mergeFold_le ivs [] h (by intro q hq; cases hq)
    p (List.mem_reverse.mp hp)

/-- C8 (amended): for every non-empty box set whose boxes satisfy
`x1 < x2` and every pile ROI of positive width, the coverage lies in
[0, 1] and equals the merged horizontal interval length divided by the
pile-ROI width, capped at 1.0. (As stated over arbitrary pile ROIs the
claim fails: see the counterexample with a negative-width ROI.) -/
theorem calc_coverage_bounds (boxes : List Box) (roi : Roi)
    (hne : boxes ≠ []) (hx : ∀ b ∈ boxes, b.roi.x1 < b.roi.x2)
    (hw : 0 < roi.x2 - roi.x1) :
    0 ≤ CoverageBasedDetector.calcCoverage boxes roi ∧
    CoverageBasedDetector.calcCoverage boxes roi ≤ 1 ∧
    CoverageBasedDetector.calcCoverage boxes roi =
      min 1 ((((CoverageBasedDetector.mergeIntervals
          (List.insertionSort (fun a b : ℚ × ℚ => a.1 ≤ b.1)
            (boxes.map fun b => (b.roi.x1, b.roi.x2)))).map
          fun p => p.2 - p.1).sum) / (roi.x2 - roi.x1)) := by
  have hsorted : ∀ p ∈ List.insertionSort (fun a b : ℚ × ℚ => a.1 ≤ b.1)
      (boxes.map fun b => (b.roi.x1, b.roi.x2)), p.1 ≤ p.2 := by
    intro p hp
    have hp' := (List.mem_insertionSort _).mp hp
    rcases List.mem_map.mp hp' with ⟨b, hb, rfl⟩
    exact le_of_lt (hx b hb)
  have hcov : 0 ≤ ((CoverageBasedDetector.mergeIntervals
      (List.insertionSort (fun a b : ℚ × ℚ => a.1 ≤ b.1)
        (boxes.map fun b => (b.roi.x1, b.roi.x2)))).map
      fun p => p.2 - p.1).sum := by
    apply List.sum_nonneg
    intro x hx'
    rcases List.mem_map.mp hx' with ⟨p, hp, rfl⟩
    have := mergeIntervals_le _ hsorted p hp
    linarith
  have hdef : CoverageBasedDetector.calcCoverage boxes roi =
      min 1 ((((CoverageBasedDetector.mergeIntervals
          (List.insertionSort (fun a b : ℚ × ℚ => a.1 ≤ b.1)
            (boxes.map fun b => (b.roi.x1, b.roi.x2)))).map
          fun p => p.2 - p.1).sum) / (roi.x2 - roi.x1)) := by
    unfold CoverageBasedDetector.calcCoverage
    rw [if_neg hne]
  refine ⟨?_, ?_, hdef⟩
  · rw [hdef]
    exact le_min (by norm_num) (div_nonneg hcov (le_of_lt hw))
  · rw [hdef]
    exact min_le_left _ _

/-- Counterexample for C8 as stated: a single box with `x1 < x2` against
a pile ROI with `x2 < x1` (width −1) yields coverage −10, outside
[0, 1]; the claim's "every pile ROI" fails. -/
theorem calc_coverage_counterexample :
    CoverageBasedDetector.calcCoverage [sampleBoxTall] ⟨0, 0, -1, 60⟩ = -10 ∧
    CoverageBasedDetector.calcCoverage [sampleBoxTall] ⟨0, 0, -1, 60⟩ < 0 := by
  constructor
  · with_unfolding_all rfl
  · with_unfolding_all decide

/-- Witness for C8 (amended) at a concrete input: one box of width 10 in
a pile ROI of width 100. -/
theorem calc_coverage_bounds_witness :
    0 ≤ CoverageBasedDetector.calcCoverage [sampleBoxTall] sampleRoi ∧
    CoverageBasedDetector.calcCoverage [sampleBoxTall] sampleRoi ≤ 1 := by
  have h := calc_coverage_bounds [sampleBoxTall] sampleRoi
    (by simp)
    (by intro b hb; rw [List.mem_singleton.mp hb]; with_unfolding_all decide)
    (by norm_num [sampleRoi])
  exact ⟨h.1, h.2.1⟩

/-! ### C10 — CoverageBasedDetector._filter_boxes_by_height never
empties a non-empty layer (for ratio ≤ 1) -/

/-- `maxQ0` is nonnegative. -/
theorem maxQ0_nonneg (xs : List ℚ) : 0 ≤ maxQ0 xs := by
  induction xs with
  | nil => simp [maxQ0]
  | cons x r ih => simpa [maxQ0] using Or.inr (by simpa [maxQ0] using ih)

/-- Every element is at most `maxQ0`. -/
theorem le_maxQ0 (xs : List ℚ) (x : ℚ) (hx : x ∈ xs) : x ≤ maxQ0 xs := by
  induction xs with
  | nil => cases hx
  | cons y r ih =>
    rcases List.mem_cons.mp hx with rfl | hx'
    · simp [maxQ0]
    · simp only [maxQ0, List.foldr_cons]
      exact le_max_of_le_right (ih hx')

/-- `maxQ0` of a non-empty list of nonnegative values is attained. -/
theorem maxQ0_mem (xs : List ℚ) (hne : xs ≠ []) (hnn : ∀ x ∈ xs, 0 ≤ x) :
    maxQ0 xs ∈ xs := by
  induction xs with
  | nil => exact absurd rfl hne
  | cons x r ih =>
    match r, ih with
    | [], _ =>
      have : maxQ0 [x] = x :=
        max_eq_left (hnn x (List.mem_singleton_self x))
      rw [this]; exact List.mem_singleton_self x
    | y :: r', ih =>
      have hm : maxQ0 (x :: y :: r') = max x (maxQ0 (y :: r')) := rfl
      rcases max_choice x (maxQ0 (y :: r')) with hc | hc
      · rw [hm, hc]; exact List.mem_cons_self _ _
      · rw [hm, hc]
        exact List.mem_cons_of_mem _
          (ih (by simp) fun z hz => hnn z (List.mem_cons_of_mem _ hz))

/-- C10: for every non-empty box list and every height-filter ratio at
most 1, the height filter keeps at least one box (a box of maximal
height always meets the threshold `max_height * ratio`), so the
filtering pass can never empty a layer that had boxes. -/
theorem height_filter_keeps_box (cfg : CoverageBasedDetector)
    (boxes : List Box) (hne : boxes ≠ [])
    (hr : cfg.heightFilterRatio ≤ 1) :
    cfg.filterBoxesByHeight boxes ≠ [] := by
  unfold CoverageBasedDetector.filterBoxesByHeight
  rw [if_neg hne]
  have hnn : ∀ x ∈ boxes.map CoverageBasedDetector.boxHeight, 0 ≤ x := by
    intro x hx
    rcases List.mem_map.mp hx with ⟨b, _, rfl⟩
    exact abs_nonneg _
  have hmem := maxQ0_mem (boxes.map CoverageBasedDetector.boxHeight)
    (by simpa using hne) hnn
  rcases List.mem_map.mp hmem with ⟨b, hb, hbmax⟩
  have hbnn : 0 ≤ CoverageBasedDetector.boxHeight b := abs_nonneg _
  have hthr : maxQ0 (boxes.map CoverageBasedDetector.boxHeight)
      * cfg.heightFilterRatio ≤ CoverageBasedDetector.boxHeight b := by
    rw [← hbmax]
    calc CoverageBasedDetector.boxHeight b * cfg.heightFilterRatio
        ≤ CoverageBasedDetector.boxHeight b * 1 :=
          mul_le_mul_of_nonneg_left hr hbnn
      _ = CoverageBasedDetector.boxHeight b := mul_one _
  apply List.ne_nil_of_mem (a := b)
  exact List.mem_filter.mpr ⟨hb, by simpa using hthr⟩

/-- Witness for C10 at a concrete input: with the default ratio 0.5 the
two-box layer keeps its tall box. -/
theorem height_filter_keeps_box_witness :
    defaultDetector.filterBoxesByHeight [sampleBoxTall, sampleBoxShort]
      ≠ [] := by
  exact height_filter_keeps_box defaultDetector [sampleBoxTall, sampleBoxShort]
    (by simp) (by norm_num [defaultDetector])

/-! ### C6 — remove_fake_top_layer -/

/-- A topmost layer of horizontal width 100 and vertical extent 5. -/
def fakeTopLayerA : Layer := ⟨5 / 2, [], some ⟨0, 0, 100, 5⟩⟩

/-- A second layer of horizontal width 100 and vertical extent 10. -/
def lowerLayerB : Layer := ⟨15, [], some ⟨0, 10, 100, 20⟩⟩

/-- A topmost layer of horizontal width 100 and vertical extent 10. -/
def tallTopLayerC : Layer := ⟨5, [], some ⟨0, 0, 100, 10⟩⟩

/-- Counterexample for C6 as stated: both layers have horizontal width
100 (ratio 1.0 ≥ 0.7), so the claim's horizontal-extent reading keeps
the list unchanged, yet the source drops the top layer because it
compares the vertical extents 5 and 10 (ratio 0.5 < 0.7). -/
theorem remove_fake_top_layer_counterexample :
    remove_fake_top_layer [fakeTopLayerA, lowerLayerB] (7 / 10)
      = .ok [lowerLayerB] ∧
    removeFakeTopLayerSpecHorizontal [fakeTopLayerA, lowerLayerB] (7 / 10)
      = .ok [fakeTopLayerA, lowerLayerB] := by
  constructor <;> with_unfolding_all rfl

/-- C6 (amended): `remove_fake_top_layer` compares the vertical extent
(`y2 - y1`) of the topmost layer against the second layer — taken from
`roi`, or recomputed from the member boxes' y-coordinates when the top
layer's roi lacks the extent fields — and drops the topmost layer
exactly when `extent_top / max(extent_next, 1e-6) < width_ratio_thr`;
lists with fewer than 2 layers pass through unchanged. (The claim's
"horizontal extent (width)" fails on the code: see the
counterexample.) -/
theorem remove_fake_top_layer_vertical_extent (thr : ℚ) (top next : Layer)
    (rest : List Layer) :
    (∀ ls : List Layer, ls.length < 2 →
      remove_fake_top_layer ls thr = .ok ls)
    ∧ (∀ rTop rNext : Roi, top.roi = some rTop → next.roi = some rNext →
        remove_fake_top_layer (top :: next :: rest) thr =
          .ok (if (rTop.y2 - rTop.y1)
                / max (rNext.y2 - rNext.y1) (1 / 1000000) < thr
              then next :: rest else top :: next :: rest))
    ∧ (∀ wTop wNext : ℚ, top.roi = none →
        layerWidthFromBoxes top = .ok wTop →
        layerWidthFromBoxes next = .ok wNext →
        remove_fake_top_layer (top :: next :: rest) thr =
          .ok (if wTop / max wNext (1 / 1000000) < thr
              then next :: rest else top :: next :: rest)) := by
  refine ⟨?_, ?_, ?_⟩
  · intro ls h
    match ls, h with
    | [], _ => rfl
    | [l], _ => rfl
    | a :: b :: r, h => simp at h; omega
  · intro rTop rNext hTop hNext
    simp only [remove_fake_top_layer, hTop, hNext]
    exact (apply_ite Except.ok _ _ _).symm
  · intro wTop wNext hnone hT hN
    simp only [remove_fake_top_layer, hnone, bind, Except.bind, hT, hN]
    exact (apply_ite Except.ok _ _ _).symm

/-- Witness for C6 (amended) at a concrete input: both layers have
vertical extent 10, ratio 1.0 ≥ 0.7, so the list passes through
unchanged. -/
theorem remove_fake_top_layer_vertical_extent_witness :
    remove_fake_top_layer [tallTopLayerC, lowerLayerB] (7 / 10)
      = .ok [tallTopLayerC, lowerLayerB] := by
  rw [(remove_fake_top_layer_vertical_extent (7 / 10) tallTopLayerC
      lowerLayerB []).2.1 ⟨0, 0, 100, 10⟩ ⟨0, 10, 100, 20⟩ rfl rfl]
  with_unfolding_all rfl

/-! ### C7 — DepthProcessor.extract_depth_at_position -/

/-- A 3×3 depth matrix holding only invalid (zero) samples. -/
def zeroMatrix3 : DepthMatrix := ⟨[[0, 0, 0], [0, 0, 0], [0, 0, 0]]⟩

/-- C7 is a code bug, witnessed here. At the in-bounds point (0.5, 0.5)
of an all-zero matrix the 5×5 neighborhood holds no positive sample and
the source raises UnboundLocalError (its return dict reads the local
`filtered_points`, assigned only on the nonempty branch) instead of
returning the structured "no valid points" failure the spec promises —
and even the dict it was building would have carried `success: True`
with value 0.0. At an out-of-bounds point (second conjunct) the
structured failure is returned as specified. -/
theorem depth_extract_no_valid_samples_raises :
    DepthProcessor.extract_depth_at_position zeroMatrix3 (1 / 2) (1 / 2) 5
      = .error .unboundLocalError ∧
    DepthProcessor.extract_depth_at_position zeroMatrix3 2 2 5
      = .ok (.failure "coordinate out of range" 0) := by
  constructor <;> with_unfolding_all rfl

/-! ### C9 — determinism of StackProcessorFactory.process, including
repeated calls on the mutated layer objects -/

/-- `maxQ0` is monotone under list inclusion. -/
theorem maxQ0_le_maxQ0 (xs ys : List ℚ) (hsub : ∀ x ∈ xs, x ∈ ys) :
    maxQ0 xs ≤ maxQ0 ys := by
  induction xs with
  | nil => exact maxQ0_nonneg ys
  | cons x r ih =>
    have hx : x ≤ maxQ0 ys := le_maxQ0 ys x (hsub x (List.mem_cons_self _ _))
    have hr : maxQ0 r ≤ maxQ0 ys :=
      ih fun z hz => hsub z (List.mem_cons_of_mem _ hz)
    simpa [maxQ0] using max_le hx hr

/-- The height filter is idempotent: filtering an already-filtered box
list changes nothing (the key fact behind the stability of repeated
`process` calls on the same, mutated, layer objects). -/
theorem filterBoxesByHeight_idem (cfg : CoverageBasedDetector)
    (boxes : List Box) :
    cfg.filterBoxesByHeight (cfg.filterBoxesByHeight boxes)
      = cfg.filterBoxesByHeight boxes := by
  by_cases hb : boxes = []
  · rw [hb]; rfl
  · unfold CoverageBasedDetector.filterBoxesByHeight
    rw [if_neg hb]
    by_cases hf : boxes.filter (fun b =>
        decide (maxQ0 (boxes.map CoverageBasedDetector.boxHeight)
          * cfg.heightFilterRatio ≤ CoverageBasedDetector.boxHeight b)) = []
    · rw [if_pos hf]
    · rw [if_neg hf]
      apply List.filter_eq_self.mpr
      intro b hbmem
      have hmem := List.mem_filter.mp hbmem
      have hkept : maxQ0 (boxes.map CoverageBasedDetector.boxHeight)
          * cfg.heightFilterRatio ≤ CoverageBasedDetector.boxHeight b :=
        of_decide_eq_true hmem.2
      rcases le_or_lt 0 cfg.heightFilterRatio with hr0 | hr0
      · have hmono : maxQ0 ((boxes.filter (fun b =>
            decide (maxQ0 (boxes.map CoverageBasedDetector.boxHeight)
              * cfg.heightFilterRatio
                ≤ CoverageBasedDetector.boxHeight b))).map
              CoverageBasedDetector.boxHeight)
            ≤ maxQ0 (boxes.map CoverageBasedDetector.boxHeight) := by
          apply maxQ0_le_maxQ0
          intro x hx
          rcases List.mem_map.mp hx with ⟨c, hc, rfl⟩
          exact List.mem_map_of_mem _ (List.mem_of_mem_filter hc)
        exact decide_eq_true
          (le_trans (mul_le_mul_of_nonneg_right hmono hr0) hkept)
      · have hle0 : maxQ0 ((boxes.filter (fun b =>
            decide (maxQ0 (boxes.map CoverageBasedDetector.boxHeight)
              * cfg.heightFilterRatio
                ≤ CoverageBasedDetector.boxHeight b))).map
              CoverageBasedDetector.boxHeight)
            * cfg.heightFilterRatio ≤ 0 :=
          mul_nonpos_of_nonneg_of_nonpos (maxQ0_nonneg _) (le_of_lt hr0)
        exact decide_eq_true (le_trans hle0 (abs_nonneg _))

/-- The layer list as the caller sees it after `detect`: the (sorted)
input with the top layer's boxes height-filtered in place. -/
theorem detect_snd (cfg : CoverageBasedDetector) (top : Layer)
    (rest : List Layer) (template : List ℤ) (roi : Roi)
    (hs : (top :: rest).Sorted fun a b => a.avg_y ≤ b.avg_y) :
    (CoverageBasedDetector.detect cfg (top :: rest) template roi).2
      = { top with boxes := cfg.filterBoxesByHeight top.boxes } :: rest := by
  unfold CoverageBasedDetector.detect
  rw [sortLayers_eq_self hs]
  by_cases hE : rest.isEmpty <;>
    simp [hE, apply_ite (f := Prod.snd (β := List Layer))]

/-- Running `detect` again on the mutated layer list returns the same
result and the same list: the height filter is idempotent and the layer
statistics it reads (`avg_y`, the filtered boxes) are unchanged. -/
theorem detect_idem (cfg : CoverageBasedDetector) (top : Layer)
    (rest : List Layer) (template : List ℤ) (roi : Roi)
    (hs : (top :: rest).Sorted fun a b => a.avg_y ≤ b.avg_y) :
    CoverageBasedDetector.detect cfg
        ({ top with boxes := cfg.filterBoxesByHeight top.boxes } :: rest)
        template roi
      = CoverageBasedDetector.detect cfg (top :: rest) template roi := by
  have hs' : ({ top with boxes := cfg.filterBoxesByHeight top.boxes }
      :: rest).Sorted (fun a b => a.avg_y ≤ b.avg_y) := by
    rcases List.sorted_cons.mp hs with ⟨h1, h2⟩
    exact List.sorted_cons.mpr ⟨h1, h2⟩
  unfold CoverageBasedDetector.detect
  rw [sortLayers_eq_self hs', sortLayers_eq_self hs]
  simp only [filterBoxesByHeight_idem]

/-- The mutated layer list of a successful `process` call is the one
`detect` produced. -/
theorem process_ok_snd (cfg : CoverageBasedDetector) (layers : List Layer)
    (template : List ℤ) (roi : Roi) (yolo : List Det)
    (di dc : Option DepthMatrix) {tot : ℤ} {mlayers : List Layer}
    (h : StackProcessorFactory.process cfg layers template roi yolo di dc
      = .ok (tot, mlayers)) :
    mlayers = (CoverageBasedDetector.detect cfg layers template roi).2 := by
  unfold StackProcessorFactory.process at h
  dsimp only at h
  split at h
  · cases hx : TemplateBasedSingleLayerProcessor.process
        (CoverageBasedDetector.detect cfg layers template roi).2 template
        { (CoverageBasedDetector.detect cfg layers template roi).1 with
          pile_roi := some roi, yolo_detections := yolo } with
    | error e => rw [hx] at h; exact absurd h (by simp [Except.map])
    | ok r =>
      rw [hx] at h
      simp only [Except.map, Except.ok.injEq, Prod.mk.injEq] at h
      exact h.2.symm
  · split at h
    · simp only [Except.ok.injEq, Prod.mk.injEq] at h
      exact h.2.symm
    · cases hx : TemplateBasedPartialProcessor.process
        (CoverageBasedDetector.detect cfg layers template roi).2 template
          { (CoverageBasedDetector.detect cfg layers template roi).1 with
            pile_roi := some roi, yolo_detections := yolo } di dc with
      | error e => rw [hx] at h; exact absurd h (by simp [Except.map])
      | ok r =>
        rw [hx] at h
        simp only [Except.map, Except.ok.injEq, Prod.mk.injEq] at h
        exact h.2.symm

/-- C9: `StackProcessorFactory.process` is deterministic and pure over
its inputs: two calls with identical layers, template, pile ROI, YOLO
detections and factory depth state return identical results — including
a repeated call on the same objects, which receives the layer list the
first call mutated in place (top layer height-filtered) and returns the
same total and the same (now stable) layers. -/
theorem factory_process_deterministic (cfg : CoverageBasedDetector)
    (layers : List Layer) (template : List ℤ) (roi : Roi)
    (yolo : List Det) (di dc : Option DepthMatrix)
    (hs : layers.Sorted fun a b => a.avg_y ≤ b.avg_y) :
    (StackProcessorFactory.process cfg layers template roi yolo di dc
      = StackProcessorFactory.process cfg layers template roi yolo di dc)
    ∧ ∀ (tot : ℤ) (mlayers : List Layer),
        StackProcessorFactory.process cfg layers template roi yolo di dc
          = .ok (tot, mlayers) →
        StackProcessorFactory.process cfg mlayers template roi yolo di dc
          = .ok (tot, mlayers) := by
  refine ⟨rfl, ?_⟩
  intro tot mlayers h
  match layers, hs, h with
  | [], _, h =>
    have hempty : StackProcessorFactory.process cfg [] template roi yolo
        di dc = .error .valueError := by with_unfolding_all rfl
    rw [hempty] at h
    exact Except.noConfusion h
  | top :: rest, hs, h =>
    have hmut : mlayers
        = { top with boxes := cfg.filterBoxesByHeight top.boxes } :: rest := by
      rw [process_ok_snd cfg (top :: rest) template roi yolo di dc h,
        detect_snd cfg top rest template roi hs]
    have hstep : StackProcessorFactory.process cfg
        ({ top with boxes := cfg.filterBoxesByHeight top.boxes } :: rest)
        template roi yolo di dc
        = StackProcessorFactory.process cfg (top :: rest) template roi
            yolo di dc := by
      unfold StackProcessorFactory.process
      rw [detect_idem cfg top rest template roi hs]
    rw [hmut, hstep]
    rw [hmut] at h
    exact h

/-- The sample top layer after the in-place height filtering of the
first `process` call (the short box removed). -/
def sampleTopLayerFiltered : Layer := ⟨5, [sampleBoxTall], some ⟨0, 0, 21, 10⟩⟩

/-- Witness for C9 at a concrete sorted input: the first call returns
total 3 and the mutated layers; a second call on the mutated layers
returns the identical result. -/
theorem factory_process_deterministic_witness :
    StackProcessorFactory.process defaultDetector
        [sampleTopLayer, sampleBottomLayer] [2, 3] sampleRoi [] none none
      = .ok (3, [sampleTopLayerFiltered, sampleBottomLayer]) ∧
    StackProcessorFactory.process defaultDetector
        [sampleTopLayerFiltered, sampleBottomLayer] [2, 3] sampleRoi []
        none none
      = .ok (3, [sampleTopLayerFiltered, sampleBottomLayer]) := by
  have h1 : StackProcessorFactory.process defaultDetector
      [sampleTopLayer, sampleBottomLayer] [2, 3] sampleRoi [] none none
      = .ok (3, [sampleTopLayerFiltered, sampleBottomLayer]) := by
    with_unfolding_all rfl
  exact ⟨h1, (factory_process_deterministic defaultDetector
    [sampleTopLayer, sampleBottomLayer] [2, 3] sampleRoi [] none none
    (by with_unfolding_all decide)).2 3
    [sampleTopLayerFiltered, sampleBottomLayer] h1⟩

/-! ### C5 — empty template: synthesized template and the resulting
total -/

/-- Counterexample for C5 as stated: with an empty database template the
factory synthesizes template [2, 3] from the raw per-layer counts, but
the detector then height-filters the top layer (2 boxes → 1), the
classification falls to `partial` (coverage 0.1), and the partial
processor returns Σ(template[:-1]) + 1 = 3, while the per-layer detected
box counts sum to 5. -/
theorem template_synthesis_counterexample :
    (StackProcessorFactory.processWithTemplateLookup defaultDetector []
        [sampleTopLayer, sampleBottomLayer] sampleRoi [] none none).map
      (fun r => r.1) = .ok 3 ∧
    ([sampleTopLayer, sampleBottomLayer].map
      fun l => (l.boxes.length : ℤ)).sum = 5 ∧
    (StackProcessorFactory.processWithTemplateLookup defaultDetector []
        [sampleTopLayer, sampleBottomLayer] sampleRoi [] none none).map
      (fun r => r.1)
      ≠ .ok (([sampleTopLayer, sampleBottomLayer].map
          fun l => (l.boxes.length : ℤ)).sum) := by
  have h1 : (StackProcessorFactory.processWithTemplateLookup defaultDetector
      [] [sampleTopLayer, sampleBottomLayer] sampleRoi [] none none).map
      (fun r => r.1) = .ok 3 := by
    with_unfolding_all rfl
  have h2 : ([sampleTopLayer, sampleBottomLayer].map
      fun l => (l.boxes.length : ℤ)).sum = 5 := by
    with_unfolding_all rfl
  refine ⟨h1, h2, ?_⟩
  rw [h1, h2]
  intro hcontra
  injection hcontra with hval
  exact absurd hval (by decide)

/-- C5 (amended): with an empty database template the factory
synthesizes one template entry per layer from the raw box counts and
dispatches as usual; the resulting total equals the sum of per-layer
detected box counts provided no top-layer box is removed by the height
filter — with at least two (sorted) layers the top count then matches
its synthesized template entry and the full processor sums the whole
template, and with exactly one layer and no top-class YOLO detection in
the pile ROI the single-layer processor falls back to the layer's box
count. (In general the claim fails: height filtering, or top-class
detections in the single-layer case, change the total — see the
counterexample.) -/
theorem template_synthesis_total_amended (cfg : CoverageBasedDetector)
    (roi : Roi) (yolo : List Det) (di dc : Option DepthMatrix) :
    (∀ (L1 L2 : Layer) (rest : List Layer),
      (L1 :: L2 :: rest).Sorted (fun a b => a.avg_y ≤ b.avg_y) →
      cfg.filterBoxesByHeight L1.boxes = L1.boxes →
      (StackProcessorFactory.processWithTemplateLookup cfg []
          (L1 :: L2 :: rest) roi yolo di dc).map (fun r => r.1)
        = .ok (((L1 :: L2 :: rest).map fun l => (l.boxes.length : ℤ)).sum))
    ∧ (∀ L : Layer,
      cfg.filterBoxesByHeight L.boxes = L.boxes →
      ((yolo.filter fun d => d.cls == "top").filter
          (centerInRoi roi)).isEmpty = true →
      (StackProcessorFactory.processWithTemplateLookup cfg [] [L] roi yolo
          di dc).map (fun r => r.1) = .ok (L.boxes.length : ℤ)) := by
  constructor
  · intro L1 L2 rest hs hfil
    have hdet : CoverageBasedDetector.detect cfg (L1 :: L2 :: rest)
        ((L1 :: L2 :: rest).map fun l => (l.boxes.length : ℤ)) roi
        = ({ status := "full", full := true, reason := "match_template"
             top_layer := some ⟨1, (L1.boxes.length : ℤ), L1.boxes.length⟩
             pile_roi := none, yolo_detections := [] },
           L1 :: L2 :: rest) := by
      unfold CoverageBasedDetector.detect
      rw [sortLayers_eq_self hs]
      simp [hfil]
    unfold StackProcessorFactory.processWithTemplateLookup
      StackProcessorFactory.getTemplateConfig StackProcessorFactory.process
    rw [if_pos rfl, hdet]
    dsimp only
    rw [if_neg (by decide), if_pos (Or.inl rfl)]
    unfold TemplateBasedFullProcessor.process
    rw [if_pos (by simp)]
    rfl
  · intro L hfil htop
    have hdet : CoverageBasedDetector.detect cfg [L]
        ([L].map fun l => (l.boxes.length : ℤ)) roi
        = ({ status := "single_layer", full := false
             reason := "single_layer_detected"
             top_layer := some ⟨1, (L.boxes.length : ℤ), L.boxes.length⟩
             pile_roi := none, yolo_detections := [] }, [L]) := by
      unfold CoverageBasedDetector.detect
      simp [sortLayers, hfil]
    unfold StackProcessorFactory.processWithTemplateLookup
      StackProcessorFactory.getTemplateConfig StackProcessorFactory.process
    rw [if_pos rfl, hdet]
    dsimp only
    rw [if_pos rfl]
    unfold TemplateBasedSingleLayerProcessor.process
    simp only [Option.getD_some, if_isEmpty_filter, htop]
    simp [Except.map]

/-- Witness for C5 (amended) at a concrete input: two sorted layers with
1 and 3 boxes, none removed by filtering; the synthesized template is
[1, 3] and the total is 4 = 1 + 3. -/
theorem template_synthesis_total_amended_witness :
    (StackProcessorFactory.processWithTemplateLookup defaultDetector []
        [sampleTopLayerFiltered, sampleBottomLayer] sampleRoi [] none
        none).map (fun r => r.1) = .ok 4 := by
  have h := (template_synthesis_total_amended defaultDetector sampleRoi []
      none none).1 sampleTopLayerFiltered sampleBottomLayer []
    (by with_unfolding_all decide) (by with_unfolding_all rfl)
  exact h.trans (by with_unfolding_all rfl)

/-! ### Bridging lemmas: the rational variance-based encodings used
above decide exactly the real-valued `np.std` comparisons of the
source. -/

/-- The population variance is nonnegative. -/
theorem popVarQ_nonneg (xs : List ℚ) : 0 ≤ popVarQ xs := by
  unfold popVarQ
  apply div_nonneg
  · apply List.sum_nonneg
    intro x hx
    rcases List.mem_map.mp hx with ⟨y, _, rfl⟩
    positivity
  · exact Nat.cast_nonneg _

/-- `cvGapLt boxes thr` decides exactly
`np.std(gaps) / np.mean(gaps) < thr` over the reals whenever the gap
mean is positive (with at least 3 boxes): the Boolean
variance comparison of the model equals the real
standard-deviation comparison of the source. -/
theorem cvGapLt_iff_sqrt (boxes : List Box) (thr : ℚ)
    (h3 : ¬ boxes.length < 3)
    (hm : 0 < meanQ (CoverageBasedDetector.gapsOf
      (CoverageBasedDetector.sortedCenters boxes))) :
    (CoverageBasedDetector.cvGapLt boxes thr = true)
      ↔ Real.sqrt ((popVarQ (CoverageBasedDetector.gapsOf
            (CoverageBasedDetector.sortedCenters boxes)) : ℚ) : ℝ)
          / ((meanQ (CoverageBasedDetector.gapsOf
            (CoverageBasedDetector.sortedCenters boxes)) : ℚ) : ℝ)
        < ((thr : ℚ) : ℝ) := by
  have hmne : ¬ (CoverageBasedDetector.gapsOf
      (CoverageBasedDetector.sortedCenters boxes) = []
      ∨ meanQ (CoverageBasedDetector.gapsOf
          (CoverageBasedDetector.sortedCenters boxes)) = 0) := by
    rintro (h | h)
    · rw [h] at hm
      simp [meanQ] at hm
    · rw [h] at hm
      exact lt_irrefl 0 hm
  unfold CoverageBasedDetector.cvGapLt
  rw [if_neg h3]
  dsimp only
  rw [if_neg hmne]
  simp only [decide_eq_true_eq]
  have hv : (0 : ℝ) ≤ ((popVarQ (CoverageBasedDetector.gapsOf
      (CoverageBasedDetector.sortedCenters boxes)) : ℚ) : ℝ) := by
    exact_mod_cast popVarQ_nonneg _
  have hmR : (0 : ℝ) < ((meanQ (CoverageBasedDetector.gapsOf
      (CoverageBasedDetector.sortedCenters boxes)) : ℚ) : ℝ) := by
    exact_mod_cast hm
  rw [div_lt_iff₀ hmR]
  constructor
  · rintro ⟨ht, hlt⟩
    have htm : (0 : ℝ) < ((thr : ℚ) : ℝ)
        * ((meanQ (CoverageBasedDetector.gapsOf
          (CoverageBasedDetector.sortedCenters boxes)) : ℚ) : ℝ) :=
      mul_pos (by exact_mod_cast ht) hmR
    refine (Real.sqrt_lt' htm).mpr ?_
    exact_mod_cast hlt
  · intro hlt
    have htm : (0 : ℝ) < ((thr : ℚ) : ℝ)
        * ((meanQ (CoverageBasedDetector.gapsOf
          (CoverageBasedDetector.sortedCenters boxes)) : ℚ) : ℝ) :=
      lt_of_le_of_lt (Real.sqrt_nonneg _) hlt
    have ht : (0 : ℚ) < thr := by
      rcases mul_pos_iff.mp htm with ⟨h1, _⟩ | ⟨_, h2⟩
      · exact_mod_cast h1
      · exact absurd hmR (not_lt.mpr (le_of_lt h2))
    refine ⟨ht, ?_⟩
    have hsq := (Real.sqrt_lt' htm).mp hlt
    have : ((popVarQ (CoverageBasedDetector.gapsOf
        (CoverageBasedDetector.sortedCenters boxes)) : ℚ) : ℝ)
        < (((thr * meanQ (CoverageBasedDetector.gapsOf
          (CoverageBasedDetector.sortedCenters boxes))) ^ 2 : ℚ) : ℝ) := by
      push_cast
      exact hsq
    exact_mod_cast this

/-- The relaxed depth refilter condition `(v - mean)^2 ≤ 4*var` of the
model decides exactly the source's `|v - mean| ≤ 2 * np.std` over the
reals, for any nonnegative variance. -/
theorem relaxed_filter_cond_iff_sqrt (v m var : ℚ) (hvar : 0 ≤ var) :
    ((v - m) ^ 2 ≤ 4 * var)
      ↔ |((v : ℚ) : ℝ) - ((m : ℚ) : ℝ)| ≤ 2 * Real.sqrt ((var : ℚ) : ℝ) := by
  have hvarR : (0 : ℝ) ≤ ((var : ℚ) : ℝ) := by exact_mod_cast hvar
  have h2 : (2 * Real.sqrt ((var : ℚ) : ℝ)) ^ 2 = 4 * ((var : ℚ) : ℝ) := by
    rw [mul_pow, Real.sq_sqrt hvarR]
    norm_num
  constructor
  · intro h
    have hR : (((v : ℚ) : ℝ) - ((m : ℚ) : ℝ)) ^ 2 ≤ 4 * ((var : ℚ) : ℝ) := by
      exact_mod_cast h
    calc |((v : ℚ) : ℝ) - ((m : ℚ) : ℝ)|
        = Real.sqrt ((((v : ℚ) : ℝ) - ((m : ℚ) : ℝ)) ^ 2) :=
          (Real.sqrt_sq_eq_abs _).symm
      _ ≤ Real.sqrt (4 * ((var : ℚ) : ℝ)) := Real.sqrt_le_sqrt hR
      _ = 2 * Real.sqrt ((var : ℚ) : ℝ) := by
          rw [← h2, Real.sqrt_sq (by positivity)]
  · intro h
    rcases abs_le.mp h with ⟨h1, h2'⟩
    have hsq : (((v : ℚ) : ℝ) - ((m : ℚ) : ℝ)) ^ 2
        ≤ (2 * Real.sqrt ((var : ℚ) : ℝ)) ^ 2 := sq_le_sq' h1 h2'
    rw [h2] at hsq
    exact_mod_cast hsq

end LeafDepot
